import Mathlib

/-!
Shallow embedding of the data-access layer of the plant-journal repository
(`src/lib/db/mongo/index.js`, the `MongoDb` collection facade).

Identifier values are embedded as a tagged type `BVal`: the document store
(MongoDB) distinguishes a BSON string from a BSON ObjectID, so a query value
of one tag never matches a stored value of the other tag, even when the
underlying hex strings agree.  `new ObjectID(s)` is embedded as the tagging
conversion `objectID s`; the store's query semantics use decidable equality
on `BVal`.

The generic CRUD helpers (`read`, `Create.createOne`, `update`, `remove`,
imported by the facade from `./read`, `./create`, `./update`, `./delete`)
are not part of the source tree; they are modelled from the spec (sections
4.3 and 6) as pure operations on an in-memory `Store`, with doc comments
marking each one.
-/

/-- A BSON scalar value as far as the identifier model is concerned: either a
plain string or a native ObjectID (carrying its hex text).  Equality is
type-sensitive, as in MongoDB: `str s` never equals `oid s`. -/
inductive BVal where
  | str : String → BVal
  | oid : String → BVal
deriving DecidableEq, Repr

/-- `toString()` on an identifier value: an ObjectID renders as its hex text,
a string renders as itself. -/
def BVal.toStr : BVal → String
  | .str s => s
  | .oid s => s

/-- `new ObjectID(s)`: converts an external string identifier to the store's
native identifier form.  (Validation of malformed identifiers happens inside
the external driver library and is not modelled; all claims use well-formed
identifiers.) -/
def objectID (s : String) : BVal := .oid s

/-- A stored document of the `user` collection.  Per the facade header
comment the only ObjectID field of a User is `_id`; `facebookId` models the
nested `facebook.id` path that `findOrCreateFacebookUser` queries, and
`payload` stands for the rest of the OAuth profile. -/
structure UserDoc where
  _id : BVal
  facebookId : Option String
  payload : String
deriving DecidableEq, Repr

/-- A stored document of the `plant` collection (`_id`, `userId`, and the
free-form attributes collapsed into `payload`). -/
structure PlantDoc where
  _id : BVal
  userId : BVal
  payload : String
deriving DecidableEq, Repr

/-- A stored document of the `note` collection (`_id`, `userId`,
`plantIds[]`, free-form attributes collapsed into `payload`). -/
structure NoteDoc where
  _id : BVal
  userId : BVal
  plantIds : List BVal
  payload : String
deriving DecidableEq, Repr

/-- The document store: the three collections the facade operates on, plus
the store's fresh-identifier counter. -/
structure Store where
  users : List UserDoc
  plants : List PlantDoc
  notes : List NoteDoc
  seq : Nat
deriving DecidableEq, Repr

/-- A fresh native identifier generated by the store on insert. -/
def freshOid (seq : Nat) : BVal := .oid ("gen" ++ Nat.repr seq)

/-- Modelled from the spec (4.3): the generic `read` helper, embedded here
as `readDocs` (`src/lib/db/mongo/read` is not under `src/`).  Returns the documents of a
collection matching the query, in stored order.  The facade's branches
(`else if(user)` / `else` in `findOrCreateFacebookUser`, `else if(plant)` in
`getPlantById`) treat a no-match result as falsy and an empty result is not
an error, so a read with no matching document is modelled as `none`. -/
def readDocs (l : List α) (q : α → Bool) : Option (List α) :=
  match l.filter q with
  | [] => none
  | r => some r

/-- Modelled from the spec (4.4): the generic `remove` helper
(`src/lib/db/mongo/delete` is not under `src/`).  Deletes every document
matching the query and reports the count removed; zero matches is not an
error. -/
def removeDocs (l : List α) (q : α → Bool) : Nat × List α :=
  ((l.filter q).length, l.filter (fun a => !(q a)))

/-- Modelled from the spec (4.3): the generic `update` helper at the note
collection (`src/lib/db/mongo/update` is not under `src/`).  Replaces
existing documents by identifier; a batch entry whose identifier matches no
stored document replaces nothing. -/
def updateNotesIn (l : List NoteDoc) (upd : List NoteDoc) : List NoteDoc :=
  l.map fun n =>
    match upd.find? (fun m => decide (m._id = n._id)) with
    | some m => m
    | none => n

/-- Modelled from the spec (4.3): `Create.createOne` at the user collection
(`src/lib/db/mongo/create` is not under `src/`).  Inserts the profile as one
document, the store assigning a fresh native `_id` (the profile has none),
and returns the stored document. -/
def createOneUser (_id : BVal) (facebookId : Option String) (payload : String)
    (s : Store) : UserDoc × Store :=
  let doc : UserDoc := { _id := _id, facebookId := facebookId, payload := payload }
  (doc, { s with users := s.users ++ [doc], seq := s.seq + 1 })

/-- Modelled from the spec (4.3): `Create.createOne` at the plant collection.
Inserts the document, the store assigning a fresh native `_id` when the
document carries none, and returns the stored document. -/
def createOnePlant (_id : Option BVal) (userId : BVal) (payload : String)
    (s : Store) : PlantDoc × Store :=
  let doc : PlantDoc :=
    { _id := _id.getD (freshOid s.seq), userId := userId, payload := payload }
  (doc, { s with plants := s.plants ++ [doc], seq := s.seq + 1 })

/-- Modelled from the spec (4.3): `Create.createOne` at the note collection. -/
def createOneNote (_id : Option BVal) (userId : BVal) (plantIds : List BVal)
    (payload : String) (s : Store) : NoteDoc × Store :=
  let doc : NoteDoc :=
    { _id := _id.getD (freshOid s.seq), userId := userId,
      plantIds := plantIds, payload := payload }
  (doc, { s with notes := s.notes ++ [doc], seq := s.seq + 1 })

/-- `convertIdToString` (facade lines 78-83) at the user collection: sets
`_id` to its string rendering; no other field is touched. -/
def convertUserIdToString (u : UserDoc) : UserDoc :=
  { u with _id := .str u._id.toStr }

/-- `convertIdToString` (facade lines 78-83) at the plant collection: sets
`_id` to its string rendering; no other field (in particular `userId`) is
touched. -/
def convertPlantIdToString (p : PlantDoc) : PlantDoc :=
  { p with _id := .str p._id.toStr }

/-- The Facebook OAuth profile handed to `findOrCreateFacebookUser`:
`facebookId` models the `facebook.id` path (`none` when the path is absent),
`payload` the rest of the profile. -/
structure UserDetails where
  facebookId : Option String
  payload : String
deriving DecidableEq, Repr

/-- `findOrCreateFacebookUser` (facade lines 96-125).  The guard
`!_.get(userDetails, 'facebook.id')` fails when the path is absent or its
value is falsy (the empty string); the lookup queries the user collection on
`facebook.id`; a found user (`user[0]`, extra matches are only logged) or
the created user is returned through `convertIdToString`.  `head?.map`
mirrors `convertIdToString(user[0])`, which passes `undefined` through when
the array is empty (a dead case: `readDocs` never yields `some []`). -/
def findOrCreateFacebookUser (userDetails : UserDetails) (s : Store) :
    Except String (Option UserDoc) × Store :=
  match userDetails.facebookId with
  | none => (.error "No facebook.id:", s)
  | some fid =>
    if fid.isEmpty then (.error "No facebook.id:", s)
    else
      match readDocs s.users (fun u => decide (u.facebookId = some fid)) with
      | some us => (.ok (us.head?.map convertUserIdToString), s)
      | none =>
        let (created, s') := createOneUser (freshOid s.seq) (some fid)
          userDetails.payload s
        (.ok (some (convertUserIdToString created)), s')

/-- A plant document as supplied by a facade caller: external string
identifiers, possibly absent. -/
structure PlantIn where
  _id : Option String
  userId : Option String
  payload : String
deriving DecidableEq, Repr

/-- `createPlant` (facade lines 135-146).  `if(plant._id)` converts a truthy
`_id` to an ObjectID (a present-but-empty `_id` is falsy and stays a
string); a falsy `userId` (absent or empty) is rejected before any write;
otherwise `userId` is converted and the document inserted via `createOne`. -/
def createPlant (plant : PlantIn) (s : Store) : Except String PlantDoc × Store :=
  let pid : Option BVal :=
    match plant._id with
    | some i => if i.isEmpty then some (.str i) else some (objectID i)
    | none => none
  match plant.userId with
  | none => (.error "userId must be specified as part of plant when creating a plant", s)
  | some u =>
    if u.isEmpty then
      (.error "userId must be specified as part of plant when creating a plant", s)
    else
      let (doc, s') := createOnePlant pid (objectID u) plant.payload s
      (.ok doc, s')

/-- A note document as supplied by a facade caller. -/
structure NoteIn where
  _id : Option String
  userId : Option String
  plantIds : List String
  payload : String
deriving DecidableEq, Repr

/-- `createNote` (facade lines 346-356).  Only `_id` is converted to an
ObjectID; `userId` and the members of `plantIds` are inserted as the plain
strings the caller supplied (no conversion appears in the source). -/
def createNote (note : NoteIn) (s : Store) : Except String NoteDoc × Store :=
  let nid : Option BVal :=
    match note._id with
    | some i => if i.isEmpty then some (.str i) else some (objectID i)
    | none => none
  match note.userId with
  | none => (.error "userId must be specified as part of note when creating a note", s)
  | some u =>
    if u.isEmpty then
      (.error "userId must be specified as part of note when creating a note", s)
    else
      let (doc, s') := createOneNote nid (.str u) (note.plantIds.map .str)
        note.payload s
      (.ok doc, s')

/-- The value `getPlantById` hands to its caller: the plant document with
`_id` stringified plus the in-memory `notes` field.  Each `notes` entry is
an `Option` because the JavaScript callback building it is a block-body
arrow function with no `return`, so `Array.map` produces `undefined` for
every element. -/
structure PlantWithNotes where
  _id : BVal
  userId : BVal
  payload : String
  notes : List (Option NoteDoc)
deriving DecidableEq, Repr

/-- `getPlantById` (facade lines 159-195).  Reads the plant by converted
`_id`; absent plant yields an absent result (`cb()`), not an error.  A found
plant triggers a note read on `{plantIds: plant[0]._id}` (the still-native
`_id`), then `convertIdToString(plant[0])` stringifies `_id` only, and
`plant.notes` is set to the note array mapped through a callback whose
block body returns nothing, i.e. to a list of `undefined` entries.  The
`some []` case would dereference `plant[0]._id` of `undefined` in the
source; it is dead because `readDocs` never returns `some []`. -/
def getPlantById (plantId : String) (s : Store) :
    Except String (Option PlantWithNotes) × Store :=
  match readDocs s.plants (fun p => decide (p._id = objectID plantId)) with
  | none => (.ok none, s)
  | some [] => (.error "TypeError: cannot read _id of undefined", s)
  | some (p0 :: _) =>
    let notesFound := (readDocs s.notes (fun n => decide (p0._id ∈ n.plantIds))).getD []
    (.ok (some
      { _id := .str p0._id.toStr, userId := p0.userId, payload := p0.payload,
        notes := notesFound.map (fun _ => none) }), s)

/-- One injected failure configuration for the four stages of the
`deletePlant` waterfall.  A field of `some e` makes the storage call of that
stage fail with error `e` (modelled from the spec, 4.3: each generic helper
can fail, e.g. on connectivity loss); `none` lets the call succeed.  A fault
only fires when the stage actually issues its storage call: the skip
branches of stages 2 and 3 issue none. -/
structure Fault where
  getNotes : Option String
  deleteNotes : Option String
  updateNotes : Option String
  deletePlantStage : Option String
deriving DecidableEq, Repr

/-- The all-stages-succeed fault configuration. -/
def noFault : Fault := ⟨none, none, none, none⟩

/-- The query of `deletePlant`'s `getNotes` stage, `{plantIds: _id, userId}`
(line 264): the note's `plantIds` array contains the (string) `_id` value
and its `userId` equals the (string) `userId` value. -/
def noteMatchesPlantUser (i u : String) (n : NoteDoc) : Bool :=
  decide (BVal.str i ∈ n.plantIds) && decide (n.userId = BVal.str u)

/-- Stage 1 of `deletePlant`: the notes associated with the plant,
`(notesForPlant || [])` (lines 263-284). -/
def fetchedNotes (i u : String) (s : Store) : List NoteDoc :=
  (readDocs s.notes (noteMatchesPlantUser i u)).getD []

/-- The partition accumulator of `deletePlant`'s `getNotes` stage
(lines 272-279). -/
structure SplitNotes where
  singlePlantNotes : List BVal
  multiplePlantNotes : List NoteDoc
deriving DecidableEq, Repr

/-- One step of the `reduce` on line 272: a note whose `plantIds` has
exactly one entry contributes its `_id` to `singlePlantNotes`, every other
note goes to `multiplePlantNotes` whole. -/
def splitStep (acc : SplitNotes) (note : NoteDoc) : SplitNotes :=
  if note.plantIds.length = 1 then
    { acc with singlePlantNotes := acc.singlePlantNotes ++ [note._id] }
  else
    { acc with multiplePlantNotes := acc.multiplePlantNotes ++ [note] }

/-- The `reduce` of `deletePlant`'s `getNotes` stage (lines 272-279). -/
def splitNotesOf (l : List NoteDoc) : SplitNotes :=
  l.foldl splitStep ⟨[], []⟩

/-- Stage 2 of `deletePlant`, `deleteNotes` (lines 286-302): when
`singlePlantNotes` is non-empty, remove the notes whose `_id` is in it
(`{_id: {$in: ...}}`); otherwise skip without touching the store. -/
def deleteNotesStage (fault : Fault) (split : SplitNotes) (s : Store) :
    Except String Store :=
  if split.singlePlantNotes.length > 0 then
    match fault.deleteNotes with
    | some e => .error e
    | none =>
      .ok { s with notes :=
        (removeDocs s.notes (fun n => decide (n._id ∈ split.singlePlantNotes))).2 }
  else
    .ok s

/-- Stage 3 of `deletePlant`, `updateNotes` (lines 304-318): when
`multiplePlantNotes` is non-empty, persist each such note with
`plantIds: note.plantIds.filter(ids => ids !== _id)` — strict JavaScript
inequality against the string `_id`, which removes exactly the
string-tagged occurrences equal to it; otherwise skip. -/
def updateNotesStage (fault : Fault) (i : String) (multis : List NoteDoc)
    (s : Store) : Except String Store :=
  if multis.length > 0 then
    match fault.updateNotes with
    | some e => .error e
    | none =>
      let updatedNotes := multis.map (fun note =>
        { note with plantIds := note.plantIds.filter (fun ids => decide (ids ≠ BVal.str i)) })
      .ok { s with notes := updateNotesIn s.notes updatedNotes }
  else
    .ok s

/-- Stage 4 of `deletePlant` (lines 320-323): remove the plant matching
`{_id, userId}` — the raw string arguments — and report the count
removed. -/
def deletePlantStageF (fault : Fault) (i u : String) (s : Store) :
    Except String Nat × Store :=
  match fault.deletePlantStage with
  | some e => (.error e, s)
  | none =>
    let r := removeDocs s.plants
      (fun p => decide (p._id = BVal.str i ∧ p.userId = BVal.str u))
    (.ok r.1, { s with plants := r.2 })

/-- `deletePlant` (facade lines 254-331) under an injected fault
configuration: the `async.waterfall` runs the four stages in order, a stage
error skips every later stage and is handed to the final callback unchanged,
and a successful run hands back the result of the final plant removal. -/
def deletePlantF (fault : Fault) (i u : String) (s : Store) :
    Except String Nat × Store :=
  match fault.getNotes with
  | some e => (.error e, s)
  | none =>
    let split := splitNotesOf (fetchedNotes i u s)
    match deleteNotesStage fault split s with
    | .error e => (.error e, s)
    | .ok s1 =>
      match updateNotesStage fault i split.multiplePlantNotes s1 with
      | .error e => (.error e, s1)
      | .ok s2 => deletePlantStageF fault i u s2

/-- `deletePlant` (facade lines 254-331) with every storage call
succeeding. -/
def deletePlant (i u : String) (s : Store) : Except String Nat × Store :=
  deletePlantF noFault i u s

/-- `deleteAllPlantsByUserId` (facade lines 334-338): a single
`remove(db, 'plant', {userId})` with the raw string `userId`; the note and
user collections are not touched. -/
def deleteAllPlantsByUserId (userId : String) (s : Store) :
    Except String Nat × Store :=
  let r := removeDocs s.plants (fun p => decide (p.userId = BVal.str userId))
  (.ok r.1, { s with plants := r.2 })

/-- `getPlantsByUserId` (facade lines 203-230).  Converts the string
`userId` to an ObjectID, reads the user collection by `_id`, and only when
`user && user.length === 1` reads the plant collection by `userId` and maps
`convertIdToString` over the (possibly empty) result; every other outcome is
the absent `cb()`. -/
def getPlantsByUserId (userId : String) (s : Store) :
    Except String (Option (List PlantDoc)) × Store :=
  let uid := objectID userId
  match readDocs s.users (fun u => decide (u._id = uid)) with
  | none => (.ok none, s)
  | some us =>
    if us.length = 1 then
      let plants := (readDocs s.plants (fun p => decide (p.userId = uid))).getD []
      (.ok (some (plants.map convertPlantIdToString)), s)
    else
      (.ok none, s)

/-! ### Helper lemmas about the modelled generic helpers -/

/-- A read with the null-result coalesced to `[]` (the facade's
`(result || [])` idiom) is exactly a filter of the collection. -/
theorem read_getD_eq_filter (l : List α) (q : α → Bool) :
    (readDocs l q).getD [] = l.filter q := by
  unfold readDocs
  cases h : l.filter q <;> simp [h]

/-- A read returning a document list returns exactly the non-empty filter of
the collection. -/
theorem read_eq_some_iff (l : List α) (q : α → Bool) (r : List α) :
    readDocs l q = some r ↔ l.filter q = r ∧ r ≠ [] := by
  unfold readDocs
  cases h : l.filter q with
  | nil =>
    simp only [h]
    constructor
    · intro hc; cases hc
    · rintro ⟨rfl, hne⟩; exact absurd rfl hne
  | cons a t =>
    simp only [h]
    constructor
    · intro hc; cases hc; exact ⟨rfl, by simp⟩
    · rintro ⟨rfl, _⟩; rfl

/-- A read over a collection whose filter is empty returns the null
result. -/
theorem readDocs_eq_none_of_filter {l : List α} {q : α → Bool}
    (h : l.filter q = []) : readDocs l q = none := by
  unfold readDocs
  rw [h]

/-- A read over a collection whose filter is non-empty returns exactly that
filter. -/
theorem readDocs_eq_some_of_filter {l : List α} {q : α → Bool} {a : α} {t : List α}
    (h : l.filter q = a :: t) : readDocs l q = some (a :: t) := by
  unfold readDocs
  rw [h]

/-- A read over a collection extended by one matching document, when nothing
of the original collection matches, returns exactly that document. -/
theorem readDocs_append_singleton {l : List α} {q : α → Bool} {c : α}
    (hl : l.filter q = []) (hc : q c = true) :
    readDocs (l ++ [c]) q = some [c] := by
  have hfil : (l ++ [c]).filter q = [c] := by
    rw [List.filter_append, hl]
    simp [hc]
  exact readDocs_eq_some_of_filter hfil

/-- The `multiplePlantNotes` side of the partition `reduce`, over any
accumulator: the notes whose `plantIds` length differs from one, appended in
order. -/
theorem splitNotes_foldl_multis (l : List NoteDoc) (acc : SplitNotes) :
    (l.foldl splitStep acc).multiplePlantNotes =
      acc.multiplePlantNotes ++ l.filter (fun n => !(decide (n.plantIds.length = 1))) := by
  induction l generalizing acc with
  | nil => simp
  | cons a t ih =>
    rw [List.foldl_cons, ih]
    by_cases h : a.plantIds.length = 1 <;> simp [splitStep, h]

/-- Membership in the update half of the partition: the note came from the
fetched list and its `plantIds` does not have exactly one entry. -/
theorem mem_splitNotes_multis {l : List NoteDoc} {m : NoteDoc}
    (h : m ∈ (splitNotesOf l).multiplePlantNotes) :
    m ∈ l ∧ m.plantIds.length ≠ 1 := by
  unfold splitNotesOf at h
  rw [splitNotes_foldl_multis] at h
  simp at h
  exact h

/-- Every note surviving a batch note update is either an untouched stored
note or one of the replacement documents. -/
theorem mem_updateNotesIn {l u : List NoteDoc} {n : NoteDoc}
    (h : n ∈ updateNotesIn l u) : n ∈ l ∨ n ∈ u := by
  unfold updateNotesIn at h
  rw [List.mem_map] at h
  obtain ⟨m, hm, he⟩ := h
  cases hf : u.find? (fun x => decide (x._id = m._id)) with
  | none => rw [hf] at he; exact Or.inl (he ▸ hm)
  | some x => rw [hf] at he; exact Or.inr (he ▸ List.mem_of_find?_eq_some hf)

/-! ### Claim theorems -/

/-- The store of the C1 evaluation: one plant whose native `_id` renders as
`"a1"` and whose owner renders as `"b1"`, and one note of that owner whose
`plantIds` holds the plant's native identifier (the typing the facade header
comment documents for stored documents). -/
def c1store : Store :=
  { users := [], plants := [⟨.oid "a1", .oid "b1", "fern"⟩],
    notes := [⟨.oid "n1", .oid "b1", [.oid "a1"], "water"⟩], seq := 0 }

/-- Claim C1 (code bug): `deletePlant` of the plant whose identifier renders
as `"a1"`, by its owner `"b1"`, deletes nothing at all — the store is
unchanged (the note still references the plant and the plant still exists)
and the reported removal count is zero, because none of the four stages
converts its string arguments to the native identifier form the stored
documents carry. -/
theorem c1_deletePlant_deletes_nothing :
    deletePlant "a1" "b1" c1store = (.ok 0, c1store) ∧
    c1store.plants = [⟨.oid "a1", .oid "b1", "fern"⟩] ∧
    c1store.notes = [⟨.oid "n1", .oid "b1", [.oid "a1"], "water"⟩] :=
  ⟨rfl, rfl, rfl⟩

/-- The store of the C4 evaluation. -/
def c4store : Store :=
  { users := [⟨.oid "u9", none, "owner"⟩], plants := [⟨.oid "p9", .oid "u9", "iris"⟩],
    notes := [⟨.oid "n9", .oid "u9", [.oid "p9"], "note"⟩], seq := 0 }

/-- Claim C4 (code bug): the string/native conversion boundary is not kept
by the facade.  `deletePlant` embeds its raw string arguments in every
storage query, so against natively-typed stored documents it matches nothing
and leaves the store unchanged; and `getPlantsByUserId` hands the caller a
plant whose `userId` is still in native form (`convertIdToString` touches
only `_id`). -/
theorem c4_conversion_boundary_broken :
    deletePlant "p9" "u9" c4store = (.ok 0, c4store) ∧
    (getPlantsByUserId "u9" c4store).1 =
      .ok (some [⟨.str "p9", .oid "u9", "iris"⟩]) :=
  ⟨rfl, rfl⟩

/-- The store of the C6 evaluation: one plant and one note referencing it by
native identifier. -/
def c6store : Store :=
  { users := [], plants := [⟨.oid "p1", .oid "u1", "rose"⟩],
    notes := [⟨.oid "n1", .oid "u1", [.oid "p1"], "w"⟩], seq := 0 }

/-- Claim C6 (code bug): `getPlantById` on an existing plant with one
referencing note returns a `notes` field of `[none]` — one `undefined` per
matched note, because the mapping callback's block body has no `return` —
instead of the array of stored notes its doc comment promises; the absent
case (unknown identifier) does return an absent result without error. -/
theorem c6_getPlantById_notes_are_undefined :
    (getPlantById "p1" c6store).1 =
      .ok (some { _id := .str "p1", userId := .oid "u1", payload := "rose",
                  notes := [none] }) ∧
    (getPlantById "zz" c6store).1 = .ok none :=
  ⟨rfl, rfl⟩

/-- Claim C8: `createPlant` on a plant document with no `userId` fails with
the validation error and performs no write — the resulting store is the
input store for every collection. -/
theorem c8_createPlant_requires_userId (plant : PlantIn) (s : Store)
    (h : plant.userId = none) :
    createPlant plant s =
      (.error "userId must be specified as part of plant when creating a plant", s) := by
  simp [createPlant, h]

/-- Witness for C8 at a concrete plant document and store. -/
theorem c8_createPlant_requires_userId_witness :
    createPlant ⟨some "p5", none, "mint"⟩ ⟨[], [], [], 0⟩ =
      (.error "userId must be specified as part of plant when creating a plant",
       (⟨[], [], [], 0⟩ : Store)) :=
  c8_createPlant_requires_userId ⟨some "p5", none, "mint"⟩ ⟨[], [], [], 0⟩ rfl

/-- Claim C10: `deleteAllPlantsByUserId` removes exactly the plant documents
whose stored `userId` equals the supplied identifier (compared in its raw
string form, as the source embeds it unconverted), reports their count, and
leaves the note and user collections completely unchanged. -/
theorem c10_deleteAllPlantsByUserId_frame (userId : String) (s : Store) :
    deleteAllPlantsByUserId userId s =
      (.ok (s.plants.filter (fun p => decide (p.userId = BVal.str userId))).length,
       { s with plants := s.plants.filter (fun p => !(decide (p.userId = BVal.str userId))) }) ∧
    (deleteAllPlantsByUserId userId s).2.notes = s.notes ∧
    (deleteAllPlantsByUserId userId s).2.users = s.users :=
  ⟨rfl, rfl, rfl⟩

/-- The store of the C9 counterexample: one user and one plant it owns, both
with native identifiers as documented for stored documents. -/
def c9store : Store :=
  { users := [⟨.oid "u1", none, "owner"⟩],
    plants := [⟨.oid "p1", .oid "u1", "cactus"⟩], notes := [], seq := 0 }

/-- Claim C9 counterexample: with exactly one matching user,
`getPlantsByUserId` does return the plant list, but the returned plant's
`userId` is still the native identifier, not its external string form — the
claim's "string-normalized identifiers" fails for every field other than
`_id`. -/
theorem c9_counterexample :
    (getPlantsByUserId "u1" c9store).1 =
      .ok (some [⟨.str "p1", .oid "u1", "cactus"⟩]) ∧
    (⟨.str "p1", .oid "u1", "cactus"⟩ : PlantDoc).userId ≠ BVal.str "u1" :=
  ⟨rfl, by decide⟩

/-- Claim C9 as amended: for every `userId` whose native form matches a
number of stored users different from one, `getPlantsByUserId` yields the
absent result (no error, no list) even when plants with that owner exist;
with exactly one matching user it returns the (possibly empty) list of that
user's plants, each with only `_id` string-normalized. -/
theorem c9_getPlantsByUserId_gate (userId : String) (s : Store) :
    ((s.users.filter (fun u => decide (u._id = objectID userId))).length ≠ 1 →
      getPlantsByUserId userId s = (.ok none, s)) ∧
    ((s.users.filter (fun u => decide (u._id = objectID userId))).length = 1 →
      getPlantsByUserId userId s =
        (.ok (some ((s.plants.filter (fun p => decide (p.userId = objectID userId))).map
          convertPlantIdToString)), s)) := by
  constructor
  · intro h
    unfold getPlantsByUserId
    cases hf : s.users.filter (fun u => decide (u._id = objectID userId)) with
    | nil => simp [readDocs_eq_none_of_filter hf]
    | cons a t =>
      rw [hf] at h
      have ht : ¬ t = [] := by
        intro hteq
        exact h (by simp [hteq])
      simp [readDocs_eq_some_of_filter hf, ht]
  · intro h
    unfold getPlantsByUserId
    cases hf : s.users.filter (fun u => decide (u._id = objectID userId)) with
    | nil => rw [hf] at h; simp at h
    | cons a t =>
      rw [hf] at h
      have ht : t = [] := by simpa using h
      simp [readDocs_eq_some_of_filter hf, ht, read_getD_eq_filter]

/-- Witness store for the C9 amended theorem. -/
def c9wstore : Store :=
  { users := [⟨.oid "u3", none, "o"⟩],
    plants := [⟨.oid "p3", .oid "u3", "ivy"⟩], notes := [], seq := 0 }

/-- Witness for the C9 amended theorem at a concrete store with exactly one
matching user. -/
theorem c9_getPlantsByUserId_gate_witness :
    getPlantsByUserId "u3" c9wstore =
      (.ok (some [⟨.str "p3", .oid "u3", "ivy"⟩]), c9wstore) :=
  (c9_getPlantsByUserId_gate "u3" c9wstore).2 (by decide)

/-- The store of the C3 counterexample: a stored user whose `facebook.id` is
the empty string. -/
def c3store : Store :=
  { users := [⟨.oid "u1", some "", "pro"⟩], plants := [], notes := [], seq := 0 }

/-- Claim C3 counterexample: the profile carries the provider identifier
(`facebook.id` is present, the empty string) and a stored user with exactly
that identifier exists, yet `findOrCreateFacebookUser` fails with the
validation error and leaves the store unchanged instead of returning the
user: the guard tests JavaScript truthiness, not presence. -/
theorem c3_counterexample :
    (∃ u ∈ c3store.users, u.facebookId = some "") ∧
    findOrCreateFacebookUser ⟨some "", "x"⟩ c3store =
      (.error "No facebook.id:", c3store) :=
  ⟨by decide, rfl⟩

/-- Claim C3 as amended: a profile whose provider identifier is absent — or
present but empty, which the truthiness guard treats the same way — fails
with the validation error and writes nothing (the store is returned
unchanged); for a profile with a non-empty identifier, if a stored user
with that identifier exists the first such user is returned with `_id`
string-normalized and nothing is created, and otherwise a new user built
from the full profile is appended and returned with `_id`
string-normalized. -/
theorem c3_findOrCreateFacebookUser_cases (profile : UserDetails) (s : Store) :
    (profile.facebookId = none →
      findOrCreateFacebookUser profile s = (.error "No facebook.id:", s)) ∧
    (profile.facebookId = some "" →
      findOrCreateFacebookUser profile s = (.error "No facebook.id:", s)) ∧
    (∀ fid, profile.facebookId = some fid → fid ≠ "" →
      ((∃ u ∈ s.users, u.facebookId = some fid) →
        ∃ u ∈ s.users, u.facebookId = some fid ∧
          findOrCreateFacebookUser profile s = (.ok (some (convertUserIdToString u)), s)) ∧
      ((∀ u ∈ s.users, u.facebookId ≠ some fid) →
        findOrCreateFacebookUser profile s =
          (.ok (some (convertUserIdToString ⟨freshOid s.seq, some fid, profile.payload⟩)),
           { s with users := s.users ++ [⟨freshOid s.seq, some fid, profile.payload⟩],
                    seq := s.seq + 1 }))) := by
  refine ⟨?_, ?_, ?_⟩
  · intro h
    simp [findOrCreateFacebookUser, h]
  · intro h
    have hE : "".isEmpty = true := rfl
    simp [findOrCreateFacebookUser, h, hE]
  · intro fid hf hne
    have hE : fid.isEmpty = false := by
      cases hfe : fid.isEmpty
      · rfl
      · exact absurd ((String.isEmpty_iff fid).mp hfe) hne
    constructor
    · rintro ⟨u0, hu0, hfb⟩
      cases hfil : s.users.filter (fun u => decide (u.facebookId = some fid)) with
      | nil =>
        exfalso
        have hn := List.filter_eq_nil_iff.mp hfil u0 hu0
        simp [hfb] at hn
      | cons a t =>
        have hmem : a ∈ s.users.filter (fun u => decide (u.facebookId = some fid)) :=
          hfil ▸ List.mem_cons_self a t
        refine ⟨a, List.mem_of_mem_filter hmem, ?_, ?_⟩
        · simpa using List.of_mem_filter hmem
        · simp [findOrCreateFacebookUser, hf, hE, readDocs_eq_some_of_filter hfil]
    · intro hnone
      have hfil : s.users.filter (fun u => decide (u.facebookId = some fid)) = [] := by
        refine List.filter_eq_nil_iff.mpr ?_
        intro u hu
        simp [hnone u hu]
      simp [findOrCreateFacebookUser, hf, hE, readDocs_eq_none_of_filter hfil,
        createOneUser]

/-- Witness for the C3 amended theorem at concrete profiles and the empty
store: the present-but-empty identifier fails with the validation error and
writes nothing, and a non-empty identifier with no existing match creates
and returns the new user. -/
theorem c3_findOrCreateFacebookUser_cases_witness :
    findOrCreateFacebookUser ⟨some "", "w"⟩ ⟨[], [], [], 0⟩ =
      (.error "No facebook.id:", (⟨[], [], [], 0⟩ : Store)) ∧
    findOrCreateFacebookUser ⟨some "f7", "pp"⟩ ⟨[], [], [], 0⟩ =
      (.ok (some ⟨.str "gen0", some "f7", "pp"⟩),
       { users := [⟨.oid "gen0", some "f7", "pp"⟩], plants := [], notes := [],
         seq := 1 }) :=
  ⟨(c3_findOrCreateFacebookUser_cases ⟨some "", "w"⟩ ⟨[], [], [], 0⟩).2.1 rfl,
   ((c3_findOrCreateFacebookUser_cases ⟨some "f7", "pp"⟩ ⟨[], [], [], 0⟩).2.2
      "f7" rfl (by decide)).2 (by simp)⟩

/-- Claim C7: `findOrCreateFacebookUser` is idempotent for a profile with a
non-empty provider identifier: the second of two successive calls returns
the same result as the first and leaves the store of the first call
unchanged (in particular it creates no second user). -/
theorem c7_findOrCreate_idempotent (profile : UserDetails) (s : Store) (fid : String)
    (hf : profile.facebookId = some fid) (hne : fid ≠ "") :
    (findOrCreateFacebookUser profile (findOrCreateFacebookUser profile s).2).1 =
      (findOrCreateFacebookUser profile s).1 ∧
    (findOrCreateFacebookUser profile (findOrCreateFacebookUser profile s).2).2 =
      (findOrCreateFacebookUser profile s).2 := by
  have hE : fid.isEmpty = false := by
    cases hfe : fid.isEmpty
    · rfl
    · exact absurd ((String.isEmpty_iff fid).mp hfe) hne
  cases hfil : s.users.filter (fun u => decide (u.facebookId = some fid)) with
  | cons a t =>
    constructor <;>
      simp [findOrCreateFacebookUser, hf, hE, readDocs_eq_some_of_filter hfil]
  | nil =>
    have hc : decide ((⟨freshOid s.seq, some fid, profile.payload⟩ : UserDoc).facebookId
        = some fid) = true := by simp
    constructor <;>
      simp [findOrCreateFacebookUser, hf, hE, readDocs_eq_none_of_filter hfil,
        createOneUser, readDocs_append_singleton hfil hc]

/-- Witness for C7 at a concrete profile and the empty store: the first call
creates the user, the second returns it unchanged. -/
theorem c7_findOrCreate_idempotent_witness :
    (findOrCreateFacebookUser ⟨some "f1", "pro"⟩
        (findOrCreateFacebookUser ⟨some "f1", "pro"⟩ ⟨[], [], [], 0⟩).2).1 =
      (findOrCreateFacebookUser ⟨some "f1", "pro"⟩ ⟨[], [], [], 0⟩).1 ∧
    (findOrCreateFacebookUser ⟨some "f1", "pro"⟩
        (findOrCreateFacebookUser ⟨some "f1", "pro"⟩ ⟨[], [], [], 0⟩).2).2 =
      (findOrCreateFacebookUser ⟨some "f1", "pro"⟩ ⟨[], [], [], 0⟩).2 :=
  c7_findOrCreate_idempotent ⟨some "f1", "pro"⟩ ⟨[], [], [], 0⟩ "f1" rfl (by decide)

/-- `noFault` injects no failure into stage 1. -/
theorem noFault_getNotes : noFault.getNotes = none := rfl

/-- Stage 2 under `noFault`: non-empty `singlePlantNotes` are removed from
the note collection, an empty set skips the removal. -/
theorem deleteNotesStage_noFault (split : SplitNotes) (s : Store) :
    deleteNotesStage noFault split s =
      .ok (if split.singlePlantNotes.length > 0 then
        { s with notes :=
          (removeDocs s.notes (fun n => decide (n._id ∈ split.singlePlantNotes))).2 }
      else s) := by
  unfold deleteNotesStage noFault
  by_cases h : split.singlePlantNotes.length > 0 <;> simp [h]

/-- Stage 3 under `noFault`: non-empty `multiplePlantNotes` are persisted
with the plant's string identifier filtered out of their `plantIds`, an
empty set skips the update. -/
theorem updateNotesStage_noFault (i : String) (multis : List NoteDoc) (s : Store) :
    updateNotesStage noFault i multis s =
      .ok (if multis.length > 0 then
        { s with notes := updateNotesIn s.notes (multis.map (fun note =>
          { note with plantIds :=
            note.plantIds.filter (fun ids => decide (ids ≠ BVal.str i)) })) }
      else s) := by
  unfold updateNotesStage noFault
  by_cases h : multis.length > 0 <;> simp [h]

/-- Stage 4 under `noFault`: the plant matching the raw string pair is
removed and the count reported. -/
theorem deletePlantStageF_noFault (i u : String) (s : Store) :
    deletePlantStageF noFault i u s =
      (.ok (removeDocs s.plants
          (fun p => decide (p._id = BVal.str i ∧ p.userId = BVal.str u))).1,
       { s with plants := (removeDocs s.plants
          (fun p => decide (p._id = BVal.str i ∧ p.userId = BVal.str u))).2 }) := by
  unfold deletePlantStageF noFault
  simp

/-- Every note surviving a successful `deletePlant` is either an untouched
note of the original store or the updated form of a fetched multi-plant
note. -/
theorem deletePlant_surviving_note (p u : String) (s : Store) (n' : NoteDoc)
    (hn' : n' ∈ (deletePlant p u s).2.notes) :
    n' ∈ s.notes ∨
      ∃ m ∈ (splitNotesOf (fetchedNotes p u s)).multiplePlantNotes,
        n' = { m with plantIds :=
          m.plantIds.filter (fun ids => decide (ids ≠ BVal.str p)) } := by
  simp only [deletePlant, deletePlantF, noFault_getNotes, deleteNotesStage_noFault,
    updateNotesStage_noFault, deletePlantStageF_noFault] at hn'
  by_cases h2 : (splitNotesOf (fetchedNotes p u s)).multiplePlantNotes.length > 0
  · rw [if_pos h2] at hn'
    rcases mem_updateNotesIn hn' with hs1 | hupd
    · by_cases h1 : (splitNotesOf (fetchedNotes p u s)).singlePlantNotes.length > 0
      · rw [if_pos h1] at hs1
        exact Or.inl (List.mem_of_mem_filter hs1)
      · rw [if_neg h1] at hs1
        exact Or.inl hs1
    · rw [List.mem_map] at hupd
      obtain ⟨m, hm, he⟩ := hupd
      exact Or.inr ⟨m, hm, he.symm⟩
  · rw [if_neg h2] at hn'
    by_cases h1 : (splitNotesOf (fetchedNotes p u s)).singlePlantNotes.length > 0
    · rw [if_pos h1] at hn'
      exact Or.inl (List.mem_of_mem_filter hn')
    · rw [if_neg h1] at hn'
      exact Or.inl hn'

/-- The store of the C2 counterexample: one note whose `plantIds` lists the
plant's identifier twice and nothing else. -/
def c2store : Store :=
  { users := [], plants := [],
    notes := [⟨.oid "n1", .str "u1", [.str "p1", .str "p1"], "dup"⟩], seq := 0 }

/-- Claim C2 counterexample: the note listing the deleted plant's identifier
twice (and no other plant) is fetched by the cascade, routed to the update
branch because its `plantIds` has two entries, and persisted with an empty
`plantIds`: after the delete the store holds a surviving note with empty
`plantIds` that is not an untouched note of the original store. -/
theorem c2_counterexample :
    ∃ n ∈ (deletePlant "p1" "u1" c2store).2.notes,
      n.plantIds = [] ∧ n ∉ c2store.notes := by decide

/-- Claim C2 as amended: provided the deleted plant's identifier occurs at
most once in each stored note's `plantIds`, every note surviving a
successful `deletePlant` is an untouched note of the original store or has
a non-empty `plantIds` — no note written by the cascade is persisted with
an empty `plantIds`. -/
theorem c2_no_empty_plantIds (p u : String) (s : Store)
    (h : ∀ n ∈ s.notes, n.plantIds.countP (fun v => decide (v = BVal.str p)) ≤ 1) :
    ∀ n' ∈ (deletePlant p u s).2.notes, n' ∈ s.notes ∨ n'.plantIds ≠ [] := by
  intro n' hn'
  rcases deletePlant_surviving_note p u s n' hn' with hmem | ⟨m, hm, rfl⟩
  · exact Or.inl hmem
  · right
    obtain ⟨hml, hlen⟩ := mem_splitNotes_multis hm
    have hfetch : fetchedNotes p u s = s.notes.filter (noteMatchesPlantUser p u) := by
      unfold fetchedNotes
      exact read_getD_eq_filter _ _
    rw [hfetch] at hml
    have hmem_s : m ∈ s.notes := List.mem_of_mem_filter hml
    have hmatch : noteMatchesPlantUser p u m = true := List.of_mem_filter hml
    have hpmem : BVal.str p ∈ m.plantIds := by
      unfold noteMatchesPlantUser at hmatch
      have hand := (Bool.and_eq_true _ _).mp hmatch
      exact of_decide_eq_true hand.1
    have hcount := h m hmem_s
    intro hnil
    have hall : ∀ v ∈ m.plantIds, v = BVal.str p := by
      intro v hv
      have hv2 := List.filter_eq_nil_iff.mp hnil v hv
      simpa using hv2
    have hcnt_len : m.plantIds.countP (fun v => decide (v = BVal.str p)) =
        m.plantIds.length := by
      rw [List.countP_eq_length]
      intro v hv
      simp [hall v hv]
    have hlenpos : 0 < m.plantIds.length :=
      List.length_pos.mpr (List.ne_nil_of_mem hpmem)
    omega

/-- Witness store for the C2 amended theorem: one note referencing the
deleted plant once, next to a second plant. -/
def c2wstore : Store :=
  { users := [], plants := [],
    notes := [⟨.oid "n2", .str "u2", [.str "p2", .str "q2"], "two"⟩], seq := 0 }

/-- Witness for the C2 amended theorem at a concrete store: the surviving
updated note keeps a non-empty `plantIds`. -/
theorem c2_no_empty_plantIds_witness :
    (⟨.oid "n2", .str "u2", [.str "q2"], "two"⟩ : NoteDoc) ∈ c2wstore.notes ∨
    (⟨.oid "n2", .str "u2", [.str "q2"], "two"⟩ : NoteDoc).plantIds ≠ [] :=
  c2_no_empty_plantIds "p2" "u2" c2wstore (by decide)
    ⟨.oid "n2", .str "u2", [.str "q2"], "two"⟩ (by decide)

/-- Claim C5: every stage failure of the `deletePlant` waterfall aborts the
remaining stages and hands the first error back to the caller unchanged,
keeping the effects of the already-completed stages in place: a `getNotes`
failure leaves the store untouched; a note-removal failure (that stage only
issues its call when single-plant notes exist) leaves the store untouched;
a note-update failure (only issued when multi-plant notes exist) keeps the
note deletions of stage 2; a plant-removal failure keeps the note deletions
and updates of stages 2 and 3 and leaves every plant in place — no
rollback anywhere. -/
theorem c5_error_propagation (f : Fault) (i u : String) (s : Store) (e : String) :
    (f.getNotes = some e → deletePlantF f i u s = (.error e, s)) ∧
    (f.getNotes = none →
      (splitNotesOf (fetchedNotes i u s)).singlePlantNotes.length > 0 →
      f.deleteNotes = some e →
      deletePlantF f i u s = (.error e, s)) ∧
    (∀ s1, f.getNotes = none →
      deleteNotesStage f (splitNotesOf (fetchedNotes i u s)) s = .ok s1 →
      (splitNotesOf (fetchedNotes i u s)).multiplePlantNotes.length > 0 →
      f.updateNotes = some e →
      deletePlantF f i u s = (.error e, s1)) ∧
    (∀ s1 s2, f.getNotes = none →
      deleteNotesStage f (splitNotesOf (fetchedNotes i u s)) s = .ok s1 →
      updateNotesStage f i (splitNotesOf (fetchedNotes i u s)).multiplePlantNotes s1
        = .ok s2 →
      f.deletePlantStage = some e →
      deletePlantF f i u s = (.error e, s2)) := by
  refine ⟨?_, ?_, ?_, ?_⟩
  · intro hg
    simp [deletePlantF, hg]
  · intro hg hlen hd
    have hstage : deleteNotesStage f (splitNotesOf (fetchedNotes i u s)) s = .error e := by
      unfold deleteNotesStage
      simp [hlen, hd]
    simp [deletePlantF, hg, hstage]
  · intro s1 hg hok hlen hupd
    have hstage : updateNotesStage f i
        (splitNotesOf (fetchedNotes i u s)).multiplePlantNotes s1 = .error e := by
      unfold updateNotesStage
      simp [hlen, hupd]
    simp [deletePlantF, hg, hok, hstage]
  · intro s1 s2 hg hok1 hok2 hp
    simp [deletePlantF, hg, hok1, hok2, deletePlantStageF, hp]

/-- The store of the C5 witness: a plant with native identifiers plus one
single-plant note and one multi-plant note in the string-typed form
`createNote` stores. -/
def c5store : Store :=
  { users := [], plants := [⟨.oid "pp", .oid "uu", "w"⟩],
    notes := [⟨.oid "nA", .str "u5", [.str "p5"], "A"⟩,
              ⟨.oid "nB", .str "u5", [.str "p5", .str "q5"], "B"⟩], seq := 0 }

/-- Witness for C5 at a concrete store with a failure injected into the
final plant-removal stage: the error surfaces unchanged while the note
deletion and update of the earlier stages remain in place and the plant
survives. -/
theorem c5_error_propagation_witness :
    deletePlantF ⟨none, none, none, some "boom"⟩ "p5" "u5" c5store =
      (.error "boom",
       { users := [], plants := [⟨.oid "pp", .oid "uu", "w"⟩],
         notes := [⟨.oid "nB", .str "u5", [.str "q5"], "B"⟩], seq := 0 }) :=
  (c5_error_propagation ⟨none, none, none, some "boom"⟩ "p5" "u5" c5store "boom").2.2.2
    _ _ rfl rfl rfl rfl
